import Mathlib

/-
Verification of the view-counter endpoint `src/pages/api/views/[slug].ts`.

The endpoint exposes two handlers over an external key-value store
(`env.VISIT_COUNTER` with `get : String → String?` and `put : String → String → Unit`):

  GET  /api/views/:slug  — read the current count without incrementing
  POST /api/views/:slug  — increment, then return the new count

We embed the store as a function `String → Option String`, the possibly-missing
environment binding as `Option Store`, and a handler invocation as a pure
function returning the HTTP response together with the list of store effects it
performed.  JavaScript numbers that can be `NaN` are embedded as `Option Int`
(`none` = `NaN`); `parseInt(·, 10)` and `String(·)` are embedded from their
ECMAScript semantics.
-/

set_option autoImplicit false

namespace Views

/-- JavaScript whitespace accepted by `parseInt` before the number
(space, tab, line feed, carriage return, vertical tab, form feed). -/
def isJsSpace (c : Char) : Bool :=
  c = ' ' || c = '\t' || c = '\n' || c = '\r' || c = '\x0b' || c = '\x0c'

/-- Numeric value of a decimal digit character. -/
def digVal (c : Char) : Nat := c.toNat - 48

/-- Consume a maximal run of leading decimal digits, folding them into `acc`;
stops (discarding the rest) at the first non-digit, as `parseInt` does. -/
def parseDigits : List Char → Nat → Nat
  | [], acc => acc
  | c :: cs, acc => if c.isDigit then parseDigits cs (acc * 10 + digVal c) else acc

/-- `parseInt`'s digit phase: fails (`NaN`) unless at least one digit is present. -/
def parseUnsigned (cs : List Char) : Option Nat :=
  match cs with
  | [] => none
  | c :: _ => if c.isDigit then some (parseDigits cs 0) else none

/-- `parseInt`'s sign phase, applied after whitespace has been skipped. -/
def parseIntSigned : List Char → Option Int
  | [] => none
  | c :: rest =>
    if c = '-' then Option.map (fun n : Nat => -(n : Int)) (parseUnsigned rest)
    else if c = '+' then Option.map (fun n : Nat => (n : Int)) (parseUnsigned rest)
    else Option.map (fun n : Nat => (n : Int)) (parseUnsigned (c :: rest))

/-- Embedding of JavaScript `parseInt(s, 10)`: skip whitespace, optional sign,
then a maximal digit run; `none` models `NaN`. -/
def parseInt10 (s : String) : Option Int :=
  parseIntSigned (s.data.dropWhile isJsSpace)

/-- The decimal digit character for `d < 10`. -/
def digitChar (d : Nat) : Char := Char.ofNat (48 + d)

/-- Decimal digit characters of a natural number, most significant first,
computed with explicit fuel so that the definition is structural (the fuel is
sufficient whenever `n < 10 ^ fuel` and `0 < fuel`). -/
def rendNatAux : Nat → Nat → List Char
  | 0, _ => []
  | fuel + 1, n =>
    if n < 10 then [digitChar n]
    else rendNatAux fuel (n / 10) ++ [digitChar (n % 10)]

/-- Decimal digit string of a natural number, most significant digit first
(the digits `String(n)` produces for a non-negative integer). -/
def rendNat (n : Nat) : List Char := rendNatAux (n + 1) n

/-- Embedding of JavaScript `String(x)` on a number that is an integer or `NaN`. -/
def jsNumToString : Option Int → String
  | none => "NaN"
  | some v => if v < 0 then ⟨'-' :: rendNat v.natAbs⟩ else ⟨rendNat v.natAbs⟩

/-- The external key-value store: a total map from keys to optional strings
(`none` = key absent, the store's `null`). -/
def Store := String → Option String

/-- `kvKey` from the source: the namespaced store key for a slug. -/
def kvKey (slug : String) : String := "views:" ++ slug

/-- `getViews` from the source: `parseInt(await env.VISIT_COUNTER.get(kvKey slug) ?? '0', 10)`. -/
def getViews (store : Store) (slug : String) : Option Int :=
  parseInt10 ((store (kvKey slug)).getD "0")

/-- A store operation performed by a handler. -/
inductive Effect
  | get (key : String)
  | put (key : String) (value : String)
deriving DecidableEq, Repr

/-- Response body: either plain text (`'Bad Request'`) or the JSON object
`{"views": v}` (where `v = none` is the serialization of `NaN`, i.e. `null`). -/
inductive Body
  | text (s : String)
  | jsonViews (views : Option Int)
deriving DecidableEq, Repr

/-- An HTTP response: status code and body.  `Response.json(x)` has status 200. -/
structure Resp where
  status : Nat
  body : Body
deriving DecidableEq, Repr

/-- JavaScript falsiness of the route parameter `slug : string | undefined`:
`!slug` is true exactly when the parameter is missing or the empty string. -/
def slugFalsy : Option String → Bool
  | none => true
  | some s => decide (s = "")

/-- The `GET` handler from the source, as a pure function from the route
parameter and the (possibly absent) store binding to the response and the
list of store effects performed. -/
def GET (slugOpt : Option String) (env : Option Store) : Resp × List Effect :=
  match slugOpt with
  | none => (⟨400, .text "Bad Request"⟩, [])
  | some slug =>
    if slug = "" then (⟨400, .text "Bad Request"⟩, [])
    else
      match env with
      | none => (⟨200, .jsonViews (some 0)⟩, [])
      | some store => (⟨200, .jsonViews (getViews store slug)⟩, [.get (kvKey slug)])

/-- The `POST` handler from the source: read the current count, add 1, write
the stringified result back, return it. -/
def POST (slugOpt : Option String) (env : Option Store) : Resp × List Effect :=
  match slugOpt with
  | none => (⟨400, .text "Bad Request"⟩, [])
  | some slug =>
    if slug = "" then (⟨400, .text "Bad Request"⟩, [])
    else
      match env with
      | none => (⟨200, .jsonViews (some 0)⟩, [])
      | some store =>
        let next := (getViews store slug).map (fun v => v + 1)
        (⟨200, .jsonViews next⟩,
         [.get (kvKey slug), .put (kvKey slug) (jsNumToString next)])

/-- Apply one store effect to the store (`get` reads, `put` overwrites one key). -/
def applyEffect (store : Store) : Effect → Store
  | .get _ => store
  | .put k v => fun q => if q = k then some v else store q

/-- Apply a handler's effect list to the store, in order. -/
def applyEffects (store : Store) (effs : List Effect) : Store :=
  effs.foldl applyEffect store

/-- One API invocation: a `GET` or a `POST` with its route parameter. -/
inductive Op
  | getOp (slugOpt : Option String)
  | postOp (slugOpt : Option String)

/-- The store after handling one invocation (store binding configured). -/
def stepOp (store : Store) : Op → Store
  | .getOp s => applyEffects store (GET s (some store)).2
  | .postOp s => applyEffects store (POST s (some store)).2

/-- The store reached from the empty store by a sequence of invocations. -/
def runOps (ops : List Op) : Store := ops.foldl stepOp (fun _ => none)

/-- The store after `n` sequential `POST slug` invocations starting from `store`. -/
def postIter (slug : String) (store : Store) : Nat → Store
  | 0 => store
  | n + 1 => stepOp (postIter slug store n) (.postOp (some slug))

/-- A digit character: a decimal digit that is neither whitespace nor a sign. -/
def goodDigit (c : Char) : Prop :=
  c.isDigit = true ∧ isJsSpace c = false ∧ c ≠ '-' ∧ c ≠ '+'

/-- Every value physically present in the store is the decimal string of a
natural number. -/
def goodStore (store : Store) : Prop :=
  ∀ k v, store k = some v → ∃ n : Nat, v = String.mk (rendNat n)

/-- The empty store: no key present. -/
def emptyStore : Store := fun _ => none

/-- A store holding the malformed (non-numeric) value `"abc"` for slug `post-a`. -/
def abcStore : Store := fun k => if k = "views:post-a" then some "abc" else none

/-- A store holding the negative value `"-5"` for slug `post-a`. -/
def negStore : Store := fun k => if k = "views:post-a" then some "-5" else none

/-- The store obtained from `abcStore` by one `POST` on slug `post-a`. -/
def abcStoreAfterPost : Store :=
  applyEffects abcStore (POST (some "post-a") (some abcStore)).2

/-! ### Digit and round-trip lemmas -/

theorem goodDigit_digitChar {d : Nat} (h : d < 10) : goodDigit (digitChar d) := by
  unfold goodDigit
  interval_cases d <;> refine ⟨by decide, by decide, by decide, by decide⟩

theorem digVal_digitChar {d : Nat} (h : d < 10) : digVal (digitChar d) = d := by
  interval_cases d <;> decide

theorem parseDigits_append (xs ys : List Char) (acc : Nat)
    (h : ∀ c ∈ xs, c.isDigit = true) :
    parseDigits (xs ++ ys) acc = parseDigits ys (parseDigits xs acc) := by
  induction xs generalizing acc with
  | nil => simp [parseDigits]
  | cons c cs ih =>
    have hc : c.isDigit = true := h c (List.mem_cons_self c cs)
    simp only [List.cons_append, parseDigits, hc, if_true]
    exact ih _ fun x hx => h x (List.mem_cons_of_mem c hx)

theorem rendNatAux_spec :
    ∀ (fuel n : Nat), n < 10 ^ (fuel + 1) →
      (∃ c cs, rendNatAux (fuel + 1) n = c :: cs) ∧
      (∀ c ∈ rendNatAux (fuel + 1) n, goodDigit c) ∧
      (∃ m, ∀ acc, parseDigits (rendNatAux (fuel + 1) n) acc = acc * m + n) := by
  intro fuel
  induction fuel with
  | zero =>
    intro n hn
    have h10 : n < 10 := by simpa using hn
    simp only [rendNatAux, if_pos h10]
    refine ⟨⟨digitChar n, [], rfl⟩, ?_, 10, ?_⟩
    · intro c hc
      rw [List.mem_singleton] at hc
      exact hc ▸ goodDigit_digitChar h10
    · intro acc
      simp [parseDigits, (goodDigit_digitChar h10).1, digVal_digitChar h10]
  | succ f ih =>
    intro n hn
    by_cases h10 : n < 10
    · simp only [rendNatAux, if_pos h10]
      refine ⟨⟨digitChar n, [], rfl⟩, ?_, 10, ?_⟩
      · intro c hc
        rw [List.mem_singleton] at hc
        exact hc ▸ goodDigit_digitChar h10
      · intro acc
        simp [parseDigits, (goodDigit_digitChar h10).1, digVal_digitChar h10]
    · have hdiv : n / 10 < 10 ^ (f + 1) := by
        rw [Nat.div_lt_iff_lt_mul (by norm_num)]
        calc n < 10 ^ (f + 1 + 1) := hn
        _ = 10 ^ (f + 1) * 10 := by ring
      obtain ⟨⟨c, cs, hcons⟩, hdigits, m, hparse⟩ := ih (n / 10) hdiv
      have hmod : n % 10 < 10 := Nat.mod_lt _ (by norm_num)
      have hstep : rendNatAux (f + 1 + 1) n =
          rendNatAux (f + 1) (n / 10) ++ [digitChar (n % 10)] := by
        conv_lhs => rw [rendNatAux]
        rw [if_neg h10]
      rw [hstep]
      refine ⟨⟨c, cs ++ [digitChar (n % 10)], by rw [hcons]; rfl⟩, ?_, m * 10, ?_⟩
      · intro x hx
        rcases List.mem_append.mp hx with hx | hx
        · exact hdigits x hx
        · rw [List.mem_singleton] at hx
          exact hx ▸ goodDigit_digitChar hmod
      · intro acc
        rw [parseDigits_append _ _ _ fun x hx => (hdigits x hx).1, hparse]
        simp [parseDigits, (goodDigit_digitChar hmod).1, digVal_digitChar hmod]
        calc (acc * m + n / 10) * 10 + n % 10
            = acc * (m * 10) + (10 * (n / 10) + n % 10) := by ring
          _ = acc * (m * 10) + n := by rw [Nat.div_add_mod]

theorem rendNat_spec (n : Nat) :
    (∃ c cs, rendNat n = c :: cs) ∧
    (∀ c ∈ rendNat n, goodDigit c) ∧
    parseDigits (rendNat n) 0 = n := by
  have hn : n < 10 ^ (n + 1) :=
    lt_of_lt_of_le (Nat.lt_pow_self (by norm_num) n)
      (Nat.pow_le_pow_right (by norm_num) (Nat.le_succ n))
  obtain ⟨hne, hdig, m, hparse⟩ := rendNatAux_spec n n hn
  exact ⟨hne, hdig, by rw [rendNat, hparse]; ring⟩

theorem parseUnsigned_rendNat (n : Nat) : parseUnsigned (rendNat n) = some n := by
  obtain ⟨⟨c, cs, hcons⟩, hdig, hparse⟩ := rendNat_spec n
  rw [hcons] at hparse ⊢
  simp [parseUnsigned, (hdig c (hcons ▸ List.mem_cons_self c cs)).1, hparse]

theorem jsNumToString_nat (n : Nat) : jsNumToString (some (n : Int)) = ⟨rendNat n⟩ := by
  simp [jsNumToString]

theorem parseInt10_mk_rendNat (n : Nat) :
    parseInt10 ⟨rendNat n⟩ = some (n : Int) := by
  obtain ⟨⟨c, cs, hcons⟩, hdig, _⟩ := rendNat_spec n
  have hgood : goodDigit c := hdig c (hcons ▸ List.mem_cons_self c cs)
  have hdata : (String.mk (rendNat n)).data = rendNat n := rfl
  rw [parseInt10, hdata, hcons, List.dropWhile_cons, if_neg (by simp [hgood.2.1])]
  simp only [parseIntSigned]
  rw [if_neg hgood.2.2.1, if_neg hgood.2.2.2, ← hcons, parseUnsigned_rendNat]
  rfl

/-- JavaScript round trip: `parseInt(String(v), 10) = v` for every integer `v`. -/
theorem parseInt10_jsNumToString (v : Int) :
    parseInt10 (jsNumToString (some v)) = some v := by
  by_cases hv : v < 0
  · have hneg : jsNumToString (some v) = ⟨'-' :: rendNat v.natAbs⟩ := by
      simp [jsNumToString, hv]
    obtain ⟨⟨c, cs, hcons⟩, hdig, _⟩ := rendNat_spec v.natAbs
    have hgood : goodDigit c := hdig c (hcons ▸ List.mem_cons_self c cs)
    rw [hneg, parseInt10]
    have hdata : (String.mk ('-' :: rendNat v.natAbs)).data = '-' :: rendNat v.natAbs := rfl
    rw [hdata, List.dropWhile_cons, if_neg (by decide)]
    have hsign : parseIntSigned ('-' :: rendNat v.natAbs)
        = Option.map (fun n : Nat => -(n : Int)) (parseUnsigned (rendNat v.natAbs)) := by
      simp [parseIntSigned]
    have hmap : Option.map (fun n : Nat => -(n : Int)) (some v.natAbs)
        = some (-(v.natAbs : Int)) := rfl
    rw [hsign, parseUnsigned_rendNat, hmap]
    congr 1
    omega
  · have habs : ((v.natAbs : Nat) : Int) = v := by omega
    have : jsNumToString (some v) = ⟨rendNat v.natAbs⟩ := by
      simp [jsNumToString, hv]
    rw [this, parseInt10_mk_rendNat, habs]

/-! ### Handler-shape lemmas -/

theorem GET_configured (slug : String) (store : Store) (h : slug ≠ "") :
    GET (some slug) (some store)
      = (⟨200, .jsonViews (getViews store slug)⟩, [.get (kvKey slug)]) := by
  simp [GET, h]

theorem POST_configured (slug : String) (store : Store) (h : slug ≠ "") :
    POST (some slug) (some store)
      = (⟨200, .jsonViews ((getViews store slug).map (fun v => v + 1))⟩,
         [.get (kvKey slug),
          .put (kvKey slug) (jsNumToString ((getViews store slug).map (fun v => v + 1)))]) := by
  simp [POST, h]

theorem getViews_absent {store : Store} {slug : String}
    (h : store (kvKey slug) = none) : getViews store slug = some 0 := by
  rw [getViews, h]
  decide

theorem getViews_stored {store : Store} {slug : String} {s : String}
    (h : store (kvKey slug) = some s) : getViews store slug = parseInt10 s := by
  rw [getViews, h]
  rfl

theorem getViews_of_jsNum {store : Store} {slug : String} {v : Int}
    (h : store (kvKey slug) = some (jsNumToString (some v))) :
    getViews store slug = some v := by
  rw [getViews_stored h, parseInt10_jsNumToString]

/-- After a configured `POST`, the slug's own key holds the stringified
incremented count. -/
theorem post_effects_key (slug : String) (store : Store) (h : slug ≠ "") :
    applyEffects store (POST (some slug) (some store)).2 (kvKey slug)
      = some (jsNumToString ((getViews store slug).map (fun v => v + 1))) := by
  rw [POST_configured slug store h]
  simp [applyEffects, applyEffect]

/-- A configured `POST` leaves every key other than the slug's own untouched. -/
theorem post_effects_other (slug : String) (store : Store) (q : String)
    (h : slug ≠ "") (hq : q ≠ kvKey slug) :
    applyEffects store (POST (some slug) (some store)).2 q = store q := by
  rw [POST_configured slug store h]
  simp [applyEffects, applyEffect, hq]

/-- `GET` performs no write at all: applying its effects is the identity. -/
theorem get_effects_id (slugOpt : Option String) (env : Option Store)
    (store : Store) (q : String) :
    applyEffects store (GET slugOpt env).2 q = store q := by
  match slugOpt with
  | none => rfl
  | some slug =>
    by_cases hs : slug = ""
    · simp [GET, hs, applyEffects]
    · match env with
      | none => simp [GET, hs, applyEffects]
      | some st => simp [GET, hs, applyEffects, applyEffect]

/-- `POST` with a falsy slug or an unconfigured store performs no effects. -/
theorem post_effects_degenerate (slugOpt : Option String) (env : Option Store)
    (h : slugFalsy slugOpt = true ∨ env = none) :
    (POST slugOpt env).2 = [] := by
  match slugOpt with
  | none => rfl
  | some slug =>
    rcases h with h | h
    · have hs : slug = "" := by simpa [slugFalsy] using h
      simp [POST, hs]
    · subst h
      by_cases hs : slug = "" <;> simp [POST, hs]

/-! ### Iterated increments -/

/-- Starting from a state where the slug's key is absent, `n` sequential
`POST`s leave the counter readable as exactly `n`. -/
theorem postIter_getViews (slug : String) (store : Store)
    (hs : slug ≠ "") (h0 : store (kvKey slug) = none) :
    ∀ n : Nat, getViews (postIter slug store n) slug = some (n : Int) := by
  intro n
  induction n with
  | zero => simpa using getViews_absent h0
  | succ n ih =>
    have hkey : postIter slug store (n + 1) (kvKey slug)
        = some (jsNumToString (some ((n : Int) + 1))) := by
      show applyEffects (postIter slug store n) (POST (some slug) (some _)).2 (kvKey slug) = _
      rw [post_effects_key slug _ hs, ih]
      rfl
    have := getViews_of_jsNum hkey
    rw [this]
    norm_cast

/-- The response of the `(n+1)`-th sequential `POST` (counting from an absent
key) is `{"views": n+1}` with status 200. -/
theorem postIter_resp (slug : String) (store : Store)
    (hs : slug ≠ "") (h0 : store (kvKey slug) = none) (n : Nat) :
    (POST (some slug) (some (postIter slug store n))).1
      = ⟨200, .jsonViews (some ((n : Int) + 1))⟩ := by
  rw [POST_configured slug _ hs, postIter_getViews slug store hs h0 n]
  rfl

/-! ### Reachable-state invariant -/

theorem goodStore_getViews {store : Store} (h : goodStore store) (slug : String) :
    ∃ n : Nat, getViews store slug = some (n : Int) := by
  cases hk : store (kvKey slug) with
  | none => exact ⟨0, getViews_absent hk⟩
  | some v =>
    obtain ⟨n, rfl⟩ := h _ _ hk
    exact ⟨n, by rw [getViews_stored hk, parseInt10_mk_rendNat]⟩

theorem goodStore_step {store : Store} (h : goodStore store) (op : Op) :
    goodStore (stepOp store op) := by
  cases op with
  | getOp s =>
    intro k v hkv
    rw [show stepOp store (.getOp s) k = store k from get_effects_id s (some store) store k] at hkv
    exact h k v hkv
  | postOp s =>
    match s with
    | none => exact h
    | some slug =>
      by_cases hs : slug = ""
      · intro k v hkv
        rw [show stepOp store (.postOp (some slug)) k = store k from by
          show applyEffects store (POST (some slug) (some store)).2 k = store k
          rw [post_effects_degenerate _ _ (Or.inl (by simp [slugFalsy, hs]))]
          rfl] at hkv
        exact h k v hkv
      · obtain ⟨n, hn⟩ := goodStore_getViews h slug
        intro k v hkv
        by_cases hk : k = kvKey slug
        · subst hk
          rw [show stepOp store (.postOp (some slug)) (kvKey slug)
              = some (jsNumToString ((getViews store slug).map (fun v => v + 1)))
              from post_effects_key slug store hs] at hkv
          rw [hn] at hkv
          refine ⟨n + 1, ?_⟩
          have : ((n : Int) + 1) = ((n + 1 : Nat) : Int) := by push_cast; ring
          have hv : v = jsNumToString (some ((n + 1 : Nat) : Int)) := by
            rw [← this]
            exact (Option.some_inj.mp hkv).symm
          rw [hv, jsNumToString_nat]
        · rw [show stepOp store (.postOp (some slug)) k = store k
              from post_effects_other slug store k hs hk] at hkv
          exact h k v hkv

theorem goodStore_runOps (ops : List Op) : goodStore (runOps ops) := by
  rw [runOps]
  have hinit : goodStore (fun _ => none) := fun k v hkv => by simp at hkv
  generalize (fun _ => none : Store) = st at hinit ⊢
  induction ops generalizing st with
  | nil => exact hinit
  | cons op ops ih => exact ih _ (goodStore_step hinit op)

/-! ### Claim theorems -/

/-- C1 (counterexample): with `"abc"` stored under `views:post-a`, `GET`
returns `{"views": null}` (the serialization of `NaN`), not `{"views": 0}`:
the claimed malformed-value fallback to 0 does not hold. -/
theorem C1_counterexample :
    (GET (some "post-a") (some abcStore)).1 = ⟨200, .jsonViews none⟩
    ∧ (GET (some "post-a") (some abcStore)).1 ≠ ⟨200, .jsonViews (some 0)⟩ := by
  exact ⟨by decide, by decide⟩

/-- C1 (amended): when the stored string has no parseable base-10 integer,
`parseInt` yields `NaN` and `GET` returns `{"views": NaN}` (serialized as
`null`), not 0; only an absent key (`null` from the store) falls back to 0. -/
theorem C1_malformed_read (slug : String) (store : Store) (s : String)
    (hs : slug ≠ "") (hst : store (kvKey slug) = some s)
    (hp : parseInt10 s = none) :
    (GET (some slug) (some store)).1 = ⟨200, .jsonViews none⟩ := by
  rw [GET_configured slug store hs, getViews_stored hst, hp]

/-- C1 witness: the amended statement instantiated at slug `post-a` with
stored value `"abc"`. -/
theorem C1_witness :
    ("post-a" ≠ "" ∧ abcStore (kvKey "post-a") = some "abc" ∧ parseInt10 "abc" = none)
    ∧ (GET (some "post-a") (some abcStore)).1 = ⟨200, .jsonViews none⟩ :=
  ⟨⟨by decide, by decide, by decide⟩,
   C1_malformed_read "post-a" abcStore "abc" (by decide) (by decide) (by decide)⟩

/-- C2: starting from a configured store with the slug's key absent, after `n`
sequential `POST`s the count reads back as `n` (both via `getViews` and via the
`GET` response), and the `(n+1)`-th `POST` returns `n+1` — equivalently, the
`n`-th `POST` returns `n`. -/
theorem C2_counter_counts (slug : String) (store : Store) (n : Nat)
    (hs : slug ≠ "") (h0 : store (kvKey slug) = none) :
    getViews (postIter slug store n) slug = some (n : Int)
    ∧ (GET (some slug) (some (postIter slug store n))).1
        = ⟨200, .jsonViews (some (n : Int))⟩
    ∧ (POST (some slug) (some (postIter slug store n))).1
        = ⟨200, .jsonViews (some ((n : Int) + 1))⟩ := by
  refine ⟨postIter_getViews slug store hs h0 n, ?_, postIter_resp slug store hs h0 n⟩
  rw [GET_configured slug _ hs, postIter_getViews slug store hs h0 n]

/-- C2 witness: three sequential `POST`s on slug `post-a` from the empty store. -/
theorem C2_witness :
    ("post-a" ≠ "" ∧ emptyStore (kvKey "post-a") = none)
    ∧ (getViews (postIter "post-a" emptyStore 3) "post-a" = some ((3 : Nat) : Int)
       ∧ (GET (some "post-a") (some (postIter "post-a" emptyStore 3))).1
           = ⟨200, .jsonViews (some ((3 : Nat) : Int))⟩
       ∧ (POST (some "post-a") (some (postIter "post-a" emptyStore 3))).1
           = ⟨200, .jsonViews (some (((3 : Nat) : Int) + 1))⟩) :=
  ⟨⟨by decide, rfl⟩, C2_counter_counts "post-a" emptyStore 3 (by decide) rfl⟩

/-- C3 (counterexample): from a store holding the malformed value `"abc"`,
two sequential `POST`s both return `{"views": null}` (`NaN`): the two return
values are equal, not two different values differing by 1. -/
theorem C3_counterexample :
    (POST (some "post-a") (some abcStore)).1 = ⟨200, .jsonViews none⟩
    ∧ (POST (some "post-a") (some abcStoreAfterPost)).1 = ⟨200, .jsonViews none⟩
    ∧ (POST (some "post-a") (some abcStore)).1
        = (POST (some "post-a") (some abcStoreAfterPost)).1 := by
  exact ⟨by decide, by decide, by decide⟩

/-- C3 (amended): whenever the current count reads as an actual number `v`
(key absent or stored string parseable — not `NaN`), two sequential `POST`s
return `v + 1` and then `v + 2`: two different values differing by exactly 1. -/
theorem C3_sequential_diff (slug : String) (store : Store) (v : Int)
    (hs : slug ≠ "") (hv : getViews store slug = some v) :
    (POST (some slug) (some store)).1 = ⟨200, .jsonViews (some (v + 1))⟩
    ∧ (POST (some slug) (some (applyEffects store (POST (some slug) (some store)).2))).1
        = ⟨200, .jsonViews (some (v + 1 + 1))⟩
    ∧ (POST (some slug) (some store)).1
        ≠ (POST (some slug) (some (applyEffects store (POST (some slug) (some store)).2))).1 := by
  have h1 : (POST (some slug) (some store)).1 = ⟨200, .jsonViews (some (v + 1))⟩ := by
    rw [POST_configured slug store hs, hv]
    rfl
  have hkey : applyEffects store (POST (some slug) (some store)).2 (kvKey slug)
      = some (jsNumToString (some (v + 1))) := by
    rw [post_effects_key slug store hs, hv]
    rfl
  have hv2 : getViews (applyEffects store (POST (some slug) (some store)).2) slug
      = some (v + 1) := getViews_of_jsNum hkey
  have h2 : (POST (some slug) (some (applyEffects store (POST (some slug) (some store)).2))).1
      = ⟨200, .jsonViews (some (v + 1 + 1))⟩ := by
    rw [POST_configured slug _ hs, hv2]
    rfl
  refine ⟨h1, h2, ?_⟩
  rw [h1, h2]
  intro hcontra
  have hb := congrArg Resp.body hcontra
  simp at hb

/-- C3 witness: the amended statement instantiated at slug `post-a` and the
empty store, where the count reads as 0. -/
theorem C3_witness :
    ("post-a" ≠ "" ∧ getViews emptyStore "post-a" = some 0)
    ∧ ((POST (some "post-a") (some emptyStore)).1 = ⟨200, .jsonViews (some ((0 : Int) + 1))⟩
       ∧ (POST (some "post-a")
            (some (applyEffects emptyStore (POST (some "post-a") (some emptyStore)).2))).1
           = ⟨200, .jsonViews (some ((0 : Int) + 1 + 1))⟩
       ∧ (POST (some "post-a") (some emptyStore)).1
           ≠ (POST (some "post-a")
                (some (applyEffects emptyStore (POST (some "post-a") (some emptyStore)).2))).1) :=
  ⟨⟨by decide, by decide⟩, C3_sequential_diff "post-a" emptyStore 0 (by decide) (by decide)⟩

/-- C4: with the store binding absent, `GET` and `POST` both answer
`{"views": 0}` with status 200 and perform no store effect at all. -/
theorem C4_unconfigured (slug : String) (hs : slug ≠ "") :
    GET (some slug) none = (⟨200, .jsonViews (some 0)⟩, [])
    ∧ POST (some slug) none = (⟨200, .jsonViews (some 0)⟩, []) := by
  constructor <;> simp [GET, POST, hs]

/-- C4 witness: the unconfigured behaviour at slug `post-a`. -/
theorem C4_witness :
    ("post-a" ≠ "")
    ∧ (GET (some "post-a") none = (⟨200, .jsonViews (some 0)⟩, [])
       ∧ POST (some "post-a") none = (⟨200, .jsonViews (some 0)⟩, [])) :=
  ⟨by decide, C4_unconfigured "post-a" (by decide)⟩

/-- C5: a missing or empty slug makes both handlers answer 400 `Bad Request`
with no store effect, and in every other case both handlers answer 200. -/
theorem C5_bad_request (slugOpt : Option String) (env : Option Store) :
    (slugFalsy slugOpt = true →
      GET slugOpt env = (⟨400, .text "Bad Request"⟩, [])
      ∧ POST slugOpt env = (⟨400, .text "Bad Request"⟩, []))
    ∧ (slugFalsy slugOpt = false →
      (GET slugOpt env).1.status = 200 ∧ (POST slugOpt env).1.status = 200) := by
  match slugOpt with
  | none =>
    exact ⟨fun _ => ⟨rfl, rfl⟩, fun h => by simp [slugFalsy] at h⟩
  | some s =>
    by_cases hs : s = ""
    · subst hs
      exact ⟨fun _ => ⟨by simp [GET], by simp [POST]⟩, fun h => by simp [slugFalsy] at h⟩
    · refine ⟨fun h => ?_, fun _ => ?_⟩
      · simp [slugFalsy, hs] at h
      · match env with
        | none => exact ⟨by simp [GET, hs], by simp [POST, hs]⟩
        | some st => exact ⟨by simp [GET, hs], by simp [POST, hs]⟩

/-- C5 witness: the empty-slug instantiation, with the store unconfigured. -/
theorem C5_witness :
    GET (some "") none = (⟨400, .text "Bad Request"⟩, [])
    ∧ POST (some "") none = (⟨400, .text "Bad Request"⟩, []) :=
  (C5_bad_request (some "") none).1 (by decide)

/-- C6: with the slug's key absent, `GET` reads 0, and the first `POST`
treats the count as 0, writes the string `"1"` to the slug's key, and
returns 1. -/
theorem C6_first_increment (slug : String) (store : Store)
    (hs : slug ≠ "") (h0 : store (kvKey slug) = none) :
    (GET (some slug) (some store)).1 = ⟨200, .jsonViews (some 0)⟩
    ∧ (POST (some slug) (some store)).1 = ⟨200, .jsonViews (some 1)⟩
    ∧ (POST (some slug) (some store)).2
        = [.get (kvKey slug), .put (kvKey slug) "1"]
    ∧ applyEffects store (POST (some slug) (some store)).2 (kvKey slug) = some "1" := by
  have hg : getViews store slug = some 0 := getViews_absent h0
  have hmap : (getViews store slug).map (fun v => v + 1) = some 1 := by
    rw [hg]
    rfl
  have hstr : jsNumToString (some 1) = "1" := by decide
  refine ⟨?_, ?_, ?_, ?_⟩
  · rw [GET_configured slug store hs, hg]
  · rw [POST_configured slug store hs, hmap]
  · rw [POST_configured slug store hs, hmap, hstr]
  · rw [post_effects_key slug store hs, hmap, hstr]

/-- C6 witness: the first increment of slug `post-a` on the empty store. -/
theorem C6_witness :
    ("post-a" ≠ "" ∧ emptyStore (kvKey "post-a") = none)
    ∧ ((GET (some "post-a") (some emptyStore)).1 = ⟨200, .jsonViews (some 0)⟩
       ∧ (POST (some "post-a") (some emptyStore)).1 = ⟨200, .jsonViews (some 1)⟩
       ∧ (POST (some "post-a") (some emptyStore)).2
           = [.get (kvKey "post-a"), .put (kvKey "post-a") "1"]
       ∧ applyEffects emptyStore (POST (some "post-a") (some emptyStore)).2 (kvKey "post-a")
           = some "1") :=
  ⟨⟨by decide, rfl⟩, C6_first_increment "post-a" emptyStore (by decide) rfl⟩

/-- C7: in every store reachable from the empty store by any sequence of
invocations, every stored value is the decimal string of a natural number,
and the count read for any slug is a non-negative integer. -/
theorem C7_reachable_counts (ops : List Op) :
    goodStore (runOps ops)
    ∧ ∀ slug : String, ∃ n : Nat, getViews (runOps ops) slug = some (n : Int) :=
  ⟨goodStore_runOps ops,
   fun slug => goodStore_getViews (goodStore_runOps ops) slug⟩

/-- C8: `GET` never writes: applying its effect list leaves every key of every
store unchanged, and its effect list contains no `put`. -/
theorem C8_get_pure (slugOpt : Option String) (env : Option Store)
    (store : Store) (q : String) :
    applyEffects store (GET slugOpt env).2 q = store q
    ∧ ∀ K V, Effect.put K V ∉ (GET slugOpt env).2 := by
  refine ⟨get_effects_id slugOpt env store q, ?_⟩
  intro K V
  match slugOpt with
  | none => simp [GET]
  | some s =>
    by_cases hs : s = ""
    · simp [GET, hs]
    · match env with
      | none => simp [GET, hs]
      | some st => simp [GET, hs]

/-- C9: a configured `POST` writes only the key `views:` + slug: every other
key keeps its value, and every `put` in its effect list targets that key. -/
theorem C9_post_frame (slug : String) (store : Store) (q : String)
    (hs : slug ≠ "") (hq : q ≠ kvKey slug) :
    applyEffects store (POST (some slug) (some store)).2 q = store q
    ∧ ∀ K V, Effect.put K V ∈ (POST (some slug) (some store)).2 → K = kvKey slug := by
  refine ⟨post_effects_other slug store q hs hq, ?_⟩
  intro K V hmem
  rw [POST_configured slug store hs] at hmem
  simp at hmem
  exact hmem.1

/-- C9 witness: slug `post-a` on the empty store leaves `views:post-b` alone. -/
theorem C9_witness :
    ("post-a" ≠ "" ∧ "views:post-b" ≠ kvKey "post-a")
    ∧ (applyEffects emptyStore (POST (some "post-a") (some emptyStore)).2 "views:post-b"
        = emptyStore "views:post-b"
       ∧ ∀ K V, Effect.put K V ∈ (POST (some "post-a") (some emptyStore)).2
          → K = kvKey "post-a") :=
  ⟨⟨by decide, by decide⟩,
   C9_post_frame "post-a" emptyStore "views:post-b" (by decide) (by decide)⟩

/-- C10: a stored string parsing to a negative integer is returned by `GET`
unmodified — the read path performs no clamping to non-negative values. -/
theorem C10_negative_read (slug : String) (store : Store) (s : String) (v : Int)
    (hs : slug ≠ "") (hst : store (kvKey slug) = some s)
    (hp : parseInt10 s = some v) (_hneg : v < 0) :
    (GET (some slug) (some store)).1 = ⟨200, .jsonViews (some v)⟩ := by
  rw [GET_configured slug store hs, getViews_stored hst, hp]

/-- C10 witness: `"-5"` stored under `views:post-a` is read back as `-5`. -/
theorem C10_witness :
    ("post-a" ≠ "" ∧ negStore (kvKey "post-a") = some "-5"
     ∧ parseInt10 "-5" = some (-5) ∧ (-5 : Int) < 0)
    ∧ (GET (some "post-a") (some negStore)).1 = ⟨200, .jsonViews (some (-5))⟩ :=
  ⟨⟨by decide, by decide, by decide, by decide⟩,
   C10_negative_read "post-a" negStore "-5" (-5) (by decide) (by decide) (by decide) (by decide)⟩

end Views
